import Mathlib

/-!
Verification of the `signingworker` consumer (`src/signingworker/worker.py`)
against its natural-language specification.

The worker is shallowly embedded: every externally visible side effect
(task-tracking calls, HTTP downloads, the signing subprocess, broker ack)
is recorded as an `Event` in a trace, and the outcome of each external call
is supplied by an `Env` value (the environment oracle).  Python exceptions
are modelled with `Except Exc`.  Control flow, the order of effects and the
exception handlers are translated line by line from `worker.py`.
-/

deriving instance DecidableEq for Except

namespace SigningWorker

/-- Exceptions that can propagate through `process_message`.
`tcRestFailure` models `taskcluster.exceptions.TaskclusterRestFailure`
(carrying `status_code`); `taskVerificationError` and `validationError`
model `signingworker.exceptions.TaskVerificationError` and
`jsonschema.ValidationError`; `checksumMismatch` models
`ChecksumMismatchError`; `signingServerError` models `SigningServerError`;
`httpError` models `requests` raising on `raise_for_status()`;
`signToolError` models a non-zero exit of the signing subprocess;
`otherError` stands for any other exception. -/
inductive Exc where
  | tcRestFailure (status : Nat)
  | taskVerificationError
  | validationError
  | checksumMismatch (expected got url : String)
  | signingServerError
  | httpError (status : Nat)
  | signToolError
  | otherError
  deriving DecidableEq

/-- Externally visible side effects of the worker, in the order they are
performed.  Each constructor corresponds to one call site in `worker.py`:
`claimTask` (line 58), `taskFetch` (`self.tc_queue.task`, line 62),
`validate` (`validate_task`, line 64), `manifestFetch` (`get_manifest`,
line 94), `download` (`requests.get` in `download_and_sign_file`, line 117),
`rmtree` (`shutil.rmtree(work_dir)`, line 125), `getToken` (`self.get_token`,
line 176), `signTool` (the `sh.python` subprocess, line 184),
`createArtifact` (`self.tc_queue.createArtifact` + `putFile`, lines 139-150),
`reportCompleted` (line 67), `reportException` (line 77), `ack`
(`message.ack()`, line 83). -/
inductive Event where
  | claimTask (taskId runId : String)
  | taskFetch (taskId : String)
  | validate (taskId : String)
  | manifestFetch (url : String)
  | download (url : String)
  | rmtree (url : String)
  | getToken
  | signTool (filename : String)
  | createArtifact (dest : String)
  | reportCompleted (taskId runId : String)
  | reportException (taskId runId reason : String)
  | ack
  deriving DecidableEq

/-- One entry of the signing manifest: the file reference (`e["mar"]`), the
declared `hash`, the `size`, plus any other fields (modelled as an
association list), which the pipeline never touches. -/
structure ManifestEntry where
  mar : String
  hash : String
  size : Nat
  extra : List (String × String)
  deriving DecidableEq

/-- The part of the task object read by the worker: `task["taskGroupId"]`
and `task["payload"]["signingManifest"]`. -/
structure Task where
  taskGroupId : String
  signingManifest : String
  deriving DecidableEq

/-- The parsed message body: `body["status"]["taskId"]` and
`body["status"]["runs"][-1]["runId"]`. -/
structure Body where
  taskId : String
  runId : String
  deriving DecidableEq

/-- Environment oracle: the outcome of every external call the worker makes.
Functions are keyed by the URL / destination the code passes to the call. -/
structure Env where
  claimResult : Except Exc Unit
  taskResult : Except Exc Task
  validateResult : Except Exc Unit
  manifestResult : Except Exc (List ManifestEntry)
  downloadResult : String → Except Exc Unit
  downloadedHash : String → String
  tokenResult : Except Exc Unit
  signToolResult : String → Except Exc Unit
  signedHash : String → String
  signedSize : String → Nat
  createArtifactResult : String → Except Exc Unit
  reportCompletedResult : Except Exc Unit
  reportExceptionResult : Except Exc Unit

/-- Characters of the last `/`-separated segment, from a reversed
character list. -/
def takeUntilSlash : List Char → List Char
  | [] => []
  | c :: rest => if c = '/' then [] else c :: takeUntilSlash rest

/-- Characters remaining after dropping the last segment and its `/`,
from a reversed character list. -/
def dropUntilSlash : List Char → List Char
  | [] => []
  | c :: rest => if c = '/' then rest else dropUntilSlash rest

/-- `urlparse.urlsplit(url).path.split("/")[-1]` (worker.py line 115):
the substring after the last `/`. -/
def lastSegment (url : String) : String :=
  String.mk ((takeUntilSlash url.data.reverse).reverse)

/-- `"/".join(manifest_url.split("/")[:-1])` (worker.py line 96):
everything before the last `/`. -/
def baseUrl (url : String) : String :=
  String.mk ((dropUntilSlash url.data.reverse).reverse)

/-- `SigningConsumer.create_artifact` (worker.py lines 134-150): one
`createArtifact` call against the task-tracking service followed by the
blob upload; modelled as a single effect whose outcome the environment
supplies. -/
def create_artifact (env : Env) (dest : String) :
    List Event × Except Exc Unit :=
  ([Event.createArtifact dest], env.createArtifactResult dest)

/-- `SigningConsumer.sign_file` (worker.py lines 173-186): obtains a token
via `get_token` (itself retry-wrapped; `env.tokenResult` is the outcome
after retries), then runs the external signing tool in place. -/
def sign_file (env : Env) (filename : String) :
    List Event × Except Exc Unit :=
  match env.tokenResult with
  | Except.error ex => ([Event.getToken], Except.error ex)
  | Except.ok _ =>
    ([Event.getToken, Event.signTool filename], env.signToolResult filename)

/-- `SigningConsumer.download_and_sign_file` (worker.py lines 112-132):
download the file, compare its hash with the manifest checksum; on mismatch
remove the working directory and raise `ChecksumMismatchError`; otherwise
sign the file in place and upload it as `public/env/<filename>`. -/
def download_and_sign_file (env : Env) (url checksum : String) :
    List Event × Except Exc Unit :=
  let filename := lastSegment url
  match env.downloadResult url with
  | Except.error ex => ([Event.download url], Except.error ex)
  | Except.ok _ =>
    let got := env.downloadedHash url
    if got = checksum then
      let sf := sign_file env filename
      match sf.2 with
      | Except.error ex => (Event.download url :: sf.1, Except.error ex)
      | Except.ok _ =>
        let ca := create_artifact env ("public/env/" ++ filename)
        (Event.download url :: sf.1 ++ ca.1, ca.2)
    else
      ([Event.download url, Event.rmtree url],
       Except.error (Exc.checksumMismatch checksum got url))

/-- The per-entry loop of `SigningConsumer.sign` (worker.py lines 97-105):
for each manifest entry in order, resolve its URL against the manifest base,
run `download_and_sign_file`, then overwrite the entry's `hash` and `size`
with the values recomputed from the signed file. -/
def signEntries (env : Env) (base : String) :
    List ManifestEntry → List Event × Except Exc (List ManifestEntry)
  | [] => ([], Except.ok [])
  | e :: rest =>
    let url := base ++ "/" ++ e.mar
    let d := download_and_sign_file env url e.hash
    match d.2 with
    | Except.error ex => (d.1, Except.error ex)
    | Except.ok _ =>
      let e2 : ManifestEntry :=
        { e with hash := env.signedHash url, size := env.signedSize url }
      let r := signEntries env base rest
      match r.2 with
      | Except.error ex => (d.1 ++ r.1, Except.error ex)
      | Except.ok es => (d.1 ++ r.1, Except.ok (e2 :: es))

/-- `SigningConsumer.sign` (worker.py lines 91-110): fetch the manifest
(`get_manifest`, retry-wrapped; `env.manifestResult` is the outcome after
retries), process every entry in order, then serialize the updated manifest
and upload it as `public/env/manifest.json`. -/
def sign (env : Env) (task : Task) : List Event × Except Exc Unit :=
  let murl := task.signingManifest
  match env.manifestResult with
  | Except.error ex => ([Event.manifestFetch murl], Except.error ex)
  | Except.ok manifest =>
    let base := baseUrl murl
    let r := signEntries env base manifest
    match r.2 with
    | Except.error ex => (Event.manifestFetch murl :: r.1, Except.error ex)
    | Except.ok _ =>
      let ca := create_artifact env "public/env/manifest.json"
      (Event.manifestFetch murl :: r.1 ++ ca.1, ca.2)

/-- The `try` block of `SigningConsumer.process_message` (worker.py lines
53-68): claim the task, fetch the task object, validate it, run the signing
pipeline, then report completion. -/
def try_body (env : Env) (body : Body) : List Event × Except Exc Unit :=
  let head0 := [Event.claimTask body.taskId body.runId]
  match env.claimResult with
  | Except.error ex => (head0, Except.error ex)
  | Except.ok _ =>
    let head1 := head0 ++ [Event.taskFetch body.taskId]
    match env.taskResult with
    | Except.error ex => (head1, Except.error ex)
    | Except.ok task =>
      let head2 := head1 ++ [Event.validate body.taskId]
      match env.validateResult with
      | Except.error ex => (head2, Except.error ex)
      | Except.ok _ =>
        let s := sign env task
        match s.2 with
        | Except.error ex => (head2 ++ s.1, Except.error ex)
        | Except.ok _ =>
          (head2 ++ s.1 ++ [Event.reportCompleted body.taskId body.runId],
           env.reportCompletedResult)

/-- Result of one `process_message` invocation: the trace of effects,
whether `message.ack()` was reached, and the outcome (an `error` means the
exception escaped the handler, aborting the consumer before the ack). -/
structure Outcome where
  trace : List Event
  acked : Bool
  result : Except Exc Unit

/-- `SigningConsumer.process_message` (worker.py lines 51-83): run the
`try` body, then the three `except` clauses in source order —
`TaskclusterRestFailure` (re-raised unless `status_code == 409`),
`(TaskVerificationError, ValidationError)` (report `malformed-payload`),
bare `Exception` (swallowed) — and finally `message.ack()`, which is
reached only when no exception escapes. -/
def process_message (env : Env) (body : Body) : Outcome :=
  match try_body env body with
  | (tr, Except.ok _) => ⟨tr ++ [Event.ack], true, Except.ok ()⟩
  | (tr, Except.error (Exc.tcRestFailure st)) =>
    if st = 409 then ⟨tr ++ [Event.ack], true, Except.ok ()⟩
    else ⟨tr, false, Except.error (Exc.tcRestFailure st)⟩
  | (tr, Except.error Exc.taskVerificationError)
  | (tr, Except.error Exc.validationError) =>
    match env.reportExceptionResult with
    | Except.error ex2 =>
      (⟨tr ++
         [Event.reportException body.taskId body.runId "malformed-payload"],
        false, Except.error ex2⟩ : Outcome)
    | Except.ok _ =>
      ⟨tr ++
         [Event.reportException body.taskId body.runId "malformed-payload",
          Event.ack],
       true, Except.ok ()⟩
  | (tr, Except.error _) => ⟨tr ++ [Event.ack], true, Except.ok ()⟩

/-- Response of one signing server to the `POST /token` request in
`get_token` (worker.py lines 159-169): either `requests` raises on
`raise_for_status()` (`httpError`), or a 2xx response whose body
(`r.content`) may be empty. -/
inductive ServerResp where
  | httpError (status : Nat)
  | body (content : String)
  deriving DecidableEq

/-- The loop body of `SigningConsumer.get_token` (worker.py lines 152-171),
after the shuffle: iterate over the (already shuffled) server list, POST to
each; `raise_for_status()` propagates an HTTP error immediately; a
non-empty body breaks out of the loop with the token; after the loop, if no
token was obtained, raise `SigningServerError`.  Returns the servers
contacted, in order, together with the outcome. -/
def get_token_once (resp : String → ServerResp) :
    List String → List String × Except Exc String
  | [] => ([], Except.error Exc.signingServerError)
  | s :: rest =>
    match resp s with
    | ServerResp.httpError st => ([s], Except.error (Exc.httpError st))
    | ServerResp.body c =>
      if c = "" then
        let r := get_token_once resp rest
        (s :: r.1, r.2)
      else ([s], Except.ok c)

/-- `redo.retriable`: run attempts `i, i+1, ...` with `n` retries left,
returning the first success or the last failure. -/
def retryFrom (f : Nat → Except Exc α) : Nat → Nat → Except Exc α
  | i, 0 => f i
  | i, n + 1 =>
    match f i with
    | Except.ok a => Except.ok a
    | Except.error _ => retryFrom f (i + 1) n

/-- `@redo.retriable(attempts=..)` (worker.py line 152): call `f` up to
`attempts` times (attempt index starting at 0), re-raising the last
exception when all attempts fail. -/
def retriable (attempts : Nat) (f : Nat → Except Exc α) : Except Exc α :=
  retryFrom f 0 (attempts - 1)

/-- The attempt count of `get_token`'s retry decorator
(worker.py line 152: `attempts=10`). -/
def get_token_attempts : Nat := 10

/-- `random.shuffle(self.signing_servers)` (worker.py line 155): the random
source reorders the pool in place.  The source is modelled as the resulting
order `rnd`; a draw that is not a permutation of the pool is ignored, so the
model always satisfies shuffle's contract of permuting the list. -/
def random_shuffle (rnd pool : List String) : List String :=
  if List.Perm rnd pool then rnd else pool

/-- `SigningConsumer.get_token` (worker.py lines 151-171), retry wrapper
included: each attempt shuffles the pool (attempt `i` draws order `rnd i`)
and runs the token loop with that attempt's server responses `resp i`. -/
def get_token (pool : List String) (rnd : Nat → List String)
    (resp : Nat → String → ServerResp) : Except Exc String :=
  retriable get_token_attempts
    (fun i => (get_token_once (resp i) (random_shuffle (rnd i) pool)).2)

/-- The process-wide configuration stored on the consumer by
`SigningConsumer.__init__` (worker.py lines 27-43); fields that the claims
quantify over. -/
structure ConsumerConfig where
  queue_name : String
  worker_type : String
  signing_servers : List String
  signing_formats : List String
  signing_server_auth : String × String
  supported_signing_scopes : List String
  tools_checkout : String
  deriving DecidableEq

/-- The effect of one `get_token` call on the consumer's configuration:
`random.shuffle(self.signing_servers)` (worker.py line 155) permutes the
stored server list in place; no other field is assigned anywhere after
`__init__`. -/
def get_token_config_effect (rnd : List String) (c : ConsumerConfig) :
    ConsumerConfig :=
  { c with signing_servers := random_shuffle rnd c.signing_servers }

/-- Whether a trace contains any artifact upload. -/
def hasCreateArtifact (tr : List Event) : Bool :=
  tr.any fun e => match e with | Event.createArtifact _ => true | _ => false

/-- Whether a trace contains any manifest fetch. -/
def hasManifestFetch (tr : List Event) : Bool :=
  tr.any fun e => match e with | Event.manifestFetch _ => true | _ => false

/-- Whether a trace contains any file download. -/
def hasDownload (tr : List Event) : Bool :=
  tr.any fun e => match e with | Event.download _ => true | _ => false

/-- Whether a trace contains a completion report. -/
def hasReportCompleted (tr : List Event) : Bool :=
  tr.any fun e => match e with | Event.reportCompleted _ _ => true | _ => false

end SigningWorker


namespace SigningWorker

/-- A concrete environment in which every external call succeeds. -/
def envBase : Env :=
  { claimResult := Except.ok ()
    taskResult := Except.ok ⟨"tg", "http://host/dir/manifest.json"⟩
    validateResult := Except.ok ()
    manifestResult := Except.ok [⟨"f.mar", "abc", 3, [("k", "v")]⟩]
    downloadResult := fun _ => Except.ok ()
    downloadedHash := fun _ => "abc"
    tokenResult := Except.ok ()
    signToolResult := fun _ => Except.ok ()
    signedHash := fun _ => "sig"
    signedSize := fun _ => 7
    createArtifactResult := fun _ => Except.ok ()
    reportCompletedResult := Except.ok ()
    reportExceptionResult := Except.ok () }

/-- A concrete message body. -/
def body0 : Body := ⟨"t1", "r1"⟩

/-- Environment in which the claim call fails with HTTP 409. -/
def env409 : Env := { envBase with claimResult := Except.error (Exc.tcRestFailure 409) }

/-- Environment in which the claim call fails with HTTP 500. -/
def env500 : Env := { envBase with claimResult := Except.error (Exc.tcRestFailure 500) }

/-- The acknowledgement policy `process_message` actually implements, as a
function of the `try` block's outcome: ack on success, on a 409
task-tracking failure, and on any non-task-tracking, non-validation
exception; on a validation failure ack only if the `reportException` call
itself succeeds; never ack on a non-409 task-tracking failure (re-raised). -/
def ackExpected (env : Env) (r : Except Exc Unit) : Bool :=
  match r with
  | Except.ok _ => true
  | Except.error (Exc.tcRestFailure st) => if st = 409 then true else false
  | Except.error Exc.taskVerificationError =>
    match env.reportExceptionResult with
    | Except.ok _ => true
    | Except.error _ => false
  | Except.error Exc.validationError =>
    match env.reportExceptionResult with
    | Except.ok _ => true
    | Except.error _ => false
  | Except.error _ => true

/-- Claim C1, as stated, is false on the code: on a claim conflict
(HTTP 409 from `claimTask`) the message IS acknowledged — the code logs
"Task already claimed, acking..." and falls through to `message.ack()` —
and conversely a non-409 task-tracking failure (a non-conflict outcome) is
re-raised before `message.ack()` is reached, so no ack is sent there. -/
theorem claim_C1_counterexample :
    (process_message env409 body0).acked = true ∧
    (process_message env500 body0).acked = false := by
  constructor <;> rfl

/-- Claim C1 (amended): for every delivered message, an ack is sent after
processing on success, on a claim conflict (HTTP 409), on a validation
failure whose `reportException` call succeeds, and on any other
non-task-tracking exception; an ack is NOT sent when a task-tracking REST
failure has a status other than 409 (the exception is re-raised, aborting
before the ack) or when the validation-failure exception report itself
raises. -/
theorem claim_C1_amended (env : Env) (body : Body) :
    (process_message env body).acked = ackExpected env (try_body env body).2 := by
  cases htry : try_body env body with
  | mk tr r =>
    cases r with
    | ok u => simp [process_message, ackExpected, htry]
    | error ex =>
      cases ex
      case tcRestFailure st =>
        by_cases h409 : st = 409 <;>
          simp [process_message, ackExpected, htry, h409]
      case taskVerificationError =>
        cases hrep : env.reportExceptionResult <;>
          simp [process_message, ackExpected, htry, hrep]
      case validationError =>
        cases hrep : env.reportExceptionResult <;>
          simp [process_message, ackExpected, htry, hrep]
      all_goals simp [process_message, ackExpected, htry]

/-- Claim C2: when the claim call fails with HTTP 409, the message is
acknowledged, no further task-tracking call is made for that job (the
trace is exactly the claim call followed by the ack), and no exception
propagates out of the handler. -/
theorem claim_C2_conflict_drops_job (env : Env) (body : Body)
    (h : env.claimResult = Except.error (Exc.tcRestFailure 409)) :
    process_message env body =
      ⟨[Event.claimTask body.taskId body.runId, Event.ack],
       true, Except.ok ()⟩ := by
  simp [process_message, try_body, h]

/-- Witness for claim C2 at a concrete environment. -/
theorem claim_C2_witness :
    env409.claimResult = Except.error (Exc.tcRestFailure 409) ∧
    process_message env409 body0 =
      ⟨[Event.claimTask "t1" "r1", Event.ack], true, Except.ok ()⟩ :=
  ⟨rfl, claim_C2_conflict_drops_job env409 body0 rfl⟩

/-- Environment in which everything succeeds except that every
`createArtifact` call fails with HTTP 409 — a task-tracking conflict
arising only after work has begun. -/
def envArtifact409 : Env :=
  { envBase with
      createArtifactResult := fun _ => Except.error (Exc.tcRestFailure 409) }

/-- Claim C10: the 409 handling is not specific to the claim step — for
any task-tracking REST failure raised anywhere in the `try` block
(including from `createArtifact` or `reportCompleted` after work has
begun), a 409 is swallowed and the message is acknowledged with no
exception escaping, while any non-409 status is re-raised and the ack is
never reached. -/
theorem claim_C10_any_tc409_swallowed (env : Env) (body : Body) (st : Nat)
    (h : (try_body env body).2 = Except.error (Exc.tcRestFailure st)) :
    (st = 409 →
      (process_message env body).acked = true ∧
      (process_message env body).result = Except.ok ()) ∧
    (st ≠ 409 →
      (process_message env body).acked = false ∧
      (process_message env body).result =
        Except.error (Exc.tcRestFailure st)) := by
  cases htry : try_body env body with
  | mk tr r =>
    rw [htry] at h
    simp only at h
    subst h
    constructor
    · intro h409
      subst h409
      simp [process_message, htry]
    · intro hne
      simp [process_message, htry, hne]

/-- Witness for claim C10: a 409 raised by `createArtifact` deep inside the
pipeline (after claim, validation and a successful download) is swallowed
and the message is acknowledged. -/
theorem claim_C10_witness :
    (try_body envArtifact409 body0).2 = Except.error (Exc.tcRestFailure 409) ∧
    ((process_message envArtifact409 body0).acked = true ∧
     (process_message envArtifact409 body0).result = Except.ok ()) :=
  ⟨by decide,
   (claim_C10_any_tc409_swallowed envArtifact409 body0 409 (by decide)).1 rfl⟩

/-- Environment in which everything succeeds except that validation
fails with a `TaskVerificationError`. -/
def envValFail : Env :=
  { envBase with validateResult := Except.error Exc.taskVerificationError }

/-- Claim C6: when the claimed task fails scope or payload-schema
validation, the worker calls `reportException` with reason
`malformed-payload` for that (taskId, runId), and no signing work happens:
the trace contains no manifest fetch and no download. -/
theorem claim_C6_validation_reports_malformed (env : Env) (body : Body)
    (task : Task) (ex : Exc)
    (hc : env.claimResult = Except.ok ())
    (ht : env.taskResult = Except.ok task)
    (hv : env.validateResult = Except.error ex)
    (hex : ex = Exc.taskVerificationError ∨ ex = Exc.validationError) :
    Event.reportException body.taskId body.runId "malformed-payload" ∈
      (process_message env body).trace ∧
    hasManifestFetch (process_message env body).trace = false ∧
    hasDownload (process_message env body).trace = false := by
  have htry : try_body env body =
      ([Event.claimTask body.taskId body.runId, Event.taskFetch body.taskId,
        Event.validate body.taskId], Except.error ex) := by
    simp [try_body, hc, ht, hv]
  rcases hex with h | h <;> subst h <;>
    cases hrep : env.reportExceptionResult <;>
      simp [process_message, htry, hrep, hasManifestFetch, hasDownload]

/-- Witness for claim C6 at a concrete environment whose validation step
raises `TaskVerificationError`. -/
theorem claim_C6_witness :
    envValFail.validateResult = Except.error Exc.taskVerificationError ∧
    (Event.reportException "t1" "r1" "malformed-payload" ∈
       (process_message envValFail body0).trace ∧
     hasManifestFetch (process_message envValFail body0).trace = false ∧
     hasDownload (process_message envValFail body0).trace = false) :=
  ⟨rfl,
   claim_C6_validation_reports_malformed envValFail body0
     ⟨"tg", "http://host/dir/manifest.json"⟩ Exc.taskVerificationError
     rfl rfl rfl (Or.inl rfl)⟩

/-- Environment in which the signing subprocess fails for every file. -/
def envSignFail : Env :=
  { envBase with signToolResult := fun _ => Except.error Exc.signToolError }

/-- Claim C3, as stated, is false on the code: in
`download_and_sign_file` the call to `sign_file` (worker.py line 128)
precedes the call to `create_artifact` (line 129), so the upload is of the
already-signed file and happens only after signing; here a file passes the
checksum check, the signing subprocess fails, and the trace contains no
`createArtifact` event at all — no unsigned-content artifact exists. -/
theorem claim_C3_counterexample :
    envSignFail.downloadedHash "http://host/dir/f.mar" = "abc" ∧
    (download_and_sign_file envSignFail "http://host/dir/f.mar" "abc").2 =
      Except.error Exc.signToolError ∧
    hasCreateArtifact
      (download_and_sign_file envSignFail "http://host/dir/f.mar" "abc").1 =
      false := by
  refine ⟨rfl, by decide, by decide⟩

/-- Claim C3 (amended): for every manifest entry whose downloaded file
passes the checksum check, the file is first signed in place and only then
uploaded under its own name (`public/env/<filename>`), so the uploaded
artifact is the signed file; an upload for that file happens only when
token acquisition and the signing subprocess both succeeded, and hence no
artifact for the file exists when signing fails. -/
theorem claim_C3_amended (env : Env) (url checksum : String)
    (hd : env.downloadResult url = Except.ok ())
    (hh : env.downloadedHash url = checksum) :
    (env.tokenResult = Except.ok () →
      env.signToolResult (lastSegment url) = Except.ok () →
      download_and_sign_file env url checksum =
        ([Event.download url, Event.getToken,
          Event.signTool (lastSegment url),
          Event.createArtifact ("public/env/" ++ lastSegment url)],
         env.createArtifactResult ("public/env/" ++ lastSegment url))) ∧
    (∀ ex, env.tokenResult = Except.ok () →
      env.signToolResult (lastSegment url) = Except.error ex →
      download_and_sign_file env url checksum =
        ([Event.download url, Event.getToken,
          Event.signTool (lastSegment url)], Except.error ex)) ∧
    (hasCreateArtifact (download_and_sign_file env url checksum).1 = true →
      env.tokenResult = Except.ok () ∧
      env.signToolResult (lastSegment url) = Except.ok ()) := by
  refine ⟨?_, ?_, ?_⟩
  · intro htok hst
    simp [download_and_sign_file, sign_file, create_artifact, hd, hh, htok,
      hst]
  · intro ex htok hst
    simp [download_and_sign_file, sign_file, hd, hh, htok, hst]
  · intro hca
    cases htok : env.tokenResult with
    | error ex =>
      simp [download_and_sign_file, sign_file, hd, hh, htok,
        hasCreateArtifact] at hca
    | ok u =>
      cases hst : env.signToolResult (lastSegment url) with
      | error ex =>
        simp [download_and_sign_file, sign_file, hd, hh, htok, hst,
          hasCreateArtifact] at hca
      | ok v => exact ⟨rfl, rfl⟩

/-- Witness for the amended claim C3 at a concrete environment where every
step succeeds: the signed file is uploaded after the sign step. -/
theorem claim_C3_witness :
    envBase.downloadResult "http://host/dir/f.mar" = Except.ok () ∧
    envBase.downloadedHash "http://host/dir/f.mar" = "abc" ∧
    envBase.tokenResult = Except.ok () ∧
    envBase.signToolResult (lastSegment "http://host/dir/f.mar") =
      Except.ok () ∧
    download_and_sign_file envBase "http://host/dir/f.mar" "abc" =
      ([Event.download "http://host/dir/f.mar", Event.getToken,
        Event.signTool (lastSegment "http://host/dir/f.mar"),
        Event.createArtifact
          ("public/env/" ++ lastSegment "http://host/dir/f.mar")],
       envBase.createArtifactResult
         ("public/env/" ++ lastSegment "http://host/dir/f.mar")) :=
  ⟨rfl, rfl, rfl, rfl,
   (claim_C3_amended envBase "http://host/dir/f.mar" "abc" rfl rfl).1 rfl rfl⟩

/-- Claim C7: whenever the per-entry loop succeeds, the republished
manifest is exactly the input manifest mapped entrywise to an entry whose
`hash` and `size` are the recomputed values for that entry's URL — so the
entry count, the relative order, the file reference `mar` and every other
field are preserved, and only `hash` and `size` change. -/
theorem claim_C7_manifest_shape (env : Env) (base : String)
    (entries : List ManifestEntry) (tr : List Event)
    (out : List ManifestEntry)
    (h : signEntries env base entries = (tr, Except.ok out)) :
    out.length = entries.length ∧
    out = entries.map (fun e =>
      { e with hash := env.signedHash (base ++ "/" ++ e.mar),
               size := env.signedSize (base ++ "/" ++ e.mar) }) := by
  suffices hmap : out = entries.map (fun e =>
      { e with hash := env.signedHash (base ++ "/" ++ e.mar),
               size := env.signedSize (base ++ "/" ++ e.mar) }) by
    exact ⟨by rw [hmap, List.length_map], hmap⟩
  induction entries generalizing tr out with
  | nil =>
    simp [signEntries] at h
    simp [h.2]
  | cons e rest ih =>
    rw [signEntries] at h
    cases hd : (download_and_sign_file env (base ++ "/" ++ e.mar) e.hash).2 with
    | error ex => rw [hd] at h; simp at h
    | ok u =>
      rw [hd] at h
      cases hr : (signEntries env base rest).2 with
      | error ex => simp [hr] at h
      | ok es =>
        simp only [hr, Prod.mk.injEq, Except.ok.injEq] at h
        have hrest : signEntries env base rest =
            ((signEntries env base rest).1, Except.ok es) := by
          rw [Prod.ext_iff]; exact ⟨rfl, hr⟩
        have hes := ih (signEntries env base rest).1 es hrest
        rw [← h.2, hes]
        simp

/-- Witness for claim C7 at a concrete environment and single-entry
manifest. -/
theorem claim_C7_witness :
    signEntries envBase "http://host/dir" [⟨"f.mar", "abc", 3, [("k", "v")]⟩] =
      ([Event.download "http://host/dir/f.mar", Event.getToken,
        Event.signTool "f.mar", Event.createArtifact "public/env/f.mar"],
       Except.ok [⟨"f.mar", "sig", 7, [("k", "v")]⟩]) ∧
    ([(⟨"f.mar", "sig", 7, [("k", "v")]⟩ : ManifestEntry)].length =
      [(⟨"f.mar", "abc", 3, [("k", "v")]⟩ : ManifestEntry)].length ∧
     [(⟨"f.mar", "sig", 7, [("k", "v")]⟩ : ManifestEntry)] =
      [(⟨"f.mar", "abc", 3, [("k", "v")]⟩ : ManifestEntry)].map (fun e =>
        { e with
            hash := envBase.signedHash ("http://host/dir" ++ "/" ++ e.mar),
            size := envBase.signedSize ("http://host/dir" ++ "/" ++ e.mar) })) :=
  ⟨by decide,
   claim_C7_manifest_shape envBase "http://host/dir"
     [⟨"f.mar", "abc", 3, [("k", "v")]⟩]
     [Event.download "http://host/dir/f.mar", Event.getToken,
      Event.signTool "f.mar", Event.createArtifact "public/env/f.mar"]
     [⟨"f.mar", "sig", 7, [("k", "v")]⟩] (by decide)⟩

/-- The events one manifest entry contributes to the pipeline trace when
every step for it succeeds: download, token fetch, signing, upload. -/
def entryEvents (_env : Env) (base : String) (e : ManifestEntry) :
    List Event :=
  [Event.download (base ++ "/" ++ e.mar), Event.getToken,
   Event.signTool (lastSegment (base ++ "/" ++ e.mar)),
   Event.createArtifact
     ("public/env/" ++ lastSegment (base ++ "/" ++ e.mar))]

/-- When every per-entry step succeeds, the per-entry loop emits exactly
the per-entry event blocks in manifest order and returns the entrywise
updated manifest. -/
theorem signEntries_all_ok (env : Env) (base : String)
    (entries : List ManifestEntry)
    (htok : env.tokenResult = Except.ok ())
    (hall : ∀ e ∈ entries,
      env.downloadResult (base ++ "/" ++ e.mar) = Except.ok () ∧
      env.downloadedHash (base ++ "/" ++ e.mar) = e.hash ∧
      env.signToolResult (lastSegment (base ++ "/" ++ e.mar)) =
        Except.ok () ∧
      env.createArtifactResult
        ("public/env/" ++ lastSegment (base ++ "/" ++ e.mar)) =
        Except.ok ()) :
    signEntries env base entries =
      (entries.flatMap (entryEvents env base),
       Except.ok (entries.map (fun e =>
         { e with hash := env.signedHash (base ++ "/" ++ e.mar),
                  size := env.signedSize (base ++ "/" ++ e.mar) }))) := by
  induction entries with
  | nil => simp [signEntries]
  | cons e rest ih =>
    obtain ⟨hd, hh, hs, hca⟩ := hall e (by simp)
    have hdf : download_and_sign_file env (base ++ "/" ++ e.mar) e.hash =
        (entryEvents env base e, Except.ok ()) := by
      simp [download_and_sign_file, sign_file, create_artifact, entryEvents,
        hd, hh, htok, hs, hca]
    have hrest := ih (fun x hx => hall x (by simp [hx]))
    simp [signEntries, hdf, hrest]

/-- Claim C8: in a run where every step succeeds, the side effects of one
task occur in exactly this strict order — claim, task-detail fetch,
validation, manifest fetch, then for each manifest entry in order its
download, token fetch, signing and artifact upload, then the manifest
upload, then the completion report, then the ack.  In particular the
claim precedes the detail fetch, validation precedes every download, each
file's download precedes its signing, each signing precedes that file's
upload, and `reportCompleted` comes after every artifact upload. -/
theorem claim_C8_effect_order (env : Env) (body : Body) (task : Task)
    (entries : List ManifestEntry)
    (hc : env.claimResult = Except.ok ())
    (ht : env.taskResult = Except.ok task)
    (hv : env.validateResult = Except.ok ())
    (hm : env.manifestResult = Except.ok entries)
    (htok : env.tokenResult = Except.ok ())
    (hall : ∀ e ∈ entries,
      env.downloadResult
        (baseUrl task.signingManifest ++ "/" ++ e.mar) = Except.ok () ∧
      env.downloadedHash
        (baseUrl task.signingManifest ++ "/" ++ e.mar) = e.hash ∧
      env.signToolResult
        (lastSegment (baseUrl task.signingManifest ++ "/" ++ e.mar)) =
        Except.ok () ∧
      env.createArtifactResult
        ("public/env/" ++
          lastSegment (baseUrl task.signingManifest ++ "/" ++ e.mar)) =
        Except.ok ())
    (hmart : env.createArtifactResult "public/env/manifest.json" =
      Except.ok ())
    (hrc : env.reportCompletedResult = Except.ok ()) :
    process_message env body =
      ⟨[Event.claimTask body.taskId body.runId,
        Event.taskFetch body.taskId, Event.validate body.taskId,
        Event.manifestFetch task.signingManifest] ++
       entries.flatMap (entryEvents env (baseUrl task.signingManifest)) ++
       [Event.createArtifact "public/env/manifest.json",
        Event.reportCompleted body.taskId body.runId, Event.ack],
       true, Except.ok ()⟩ := by
  have hse := signEntries_all_ok env (baseUrl task.signingManifest) entries
    htok hall
  have hsign : sign env task =
      (Event.manifestFetch task.signingManifest ::
        entries.flatMap (entryEvents env (baseUrl task.signingManifest)) ++
        [Event.createArtifact "public/env/manifest.json"],
       Except.ok ()) := by
    simp [sign, create_artifact, hm, hse, hmart]
  have htry : try_body env body =
      ([Event.claimTask body.taskId body.runId,
        Event.taskFetch body.taskId, Event.validate body.taskId] ++
       (Event.manifestFetch task.signingManifest ::
         entries.flatMap (entryEvents env (baseUrl task.signingManifest)) ++
         [Event.createArtifact "public/env/manifest.json"]) ++
       [Event.reportCompleted body.taskId body.runId],
       Except.ok ()) := by
    simp [try_body, hc, ht, hv, hsign, hrc]
  simp [process_message, htry]

/-- Witness for claim C8 at a concrete all-success environment with a
single-entry manifest. -/
theorem claim_C8_witness :
    envBase.claimResult = Except.ok () ∧
    envBase.tokenResult = Except.ok () ∧
    process_message envBase body0 =
      ⟨[Event.claimTask "t1" "r1", Event.taskFetch "t1", Event.validate "t1",
        Event.manifestFetch "http://host/dir/manifest.json"] ++
       [(⟨"f.mar", "abc", 3, [("k", "v")]⟩ : ManifestEntry)].flatMap
         (entryEvents envBase (baseUrl "http://host/dir/manifest.json")) ++
       [Event.createArtifact "public/env/manifest.json",
        Event.reportCompleted "t1" "r1", Event.ack],
       true, Except.ok ()⟩ :=
  ⟨rfl, rfl,
   claim_C8_effect_order envBase body0
     ⟨"tg", "http://host/dir/manifest.json"⟩
     [⟨"f.mar", "abc", 3, [("k", "v")]⟩]
     rfl rfl rfl rfl rfl (by decide) rfl rfl⟩

/-- Every per-entry step of the pipeline succeeds for entry `e`: the
download, the checksum comparison, the token fetch, the signing subprocess
and the artifact upload. -/
def entryOk (env : Env) (base : String) (e : ManifestEntry) : Prop :=
  env.downloadResult (base ++ "/" ++ e.mar) = Except.ok () ∧
  env.downloadedHash (base ++ "/" ++ e.mar) = e.hash ∧
  env.tokenResult = Except.ok () ∧
  env.signToolResult (lastSegment (base ++ "/" ++ e.mar)) = Except.ok () ∧
  env.createArtifactResult
    ("public/env/" ++ lastSegment (base ++ "/" ++ e.mar)) = Except.ok ()

instance (env : Env) (base : String) (e : ManifestEntry) :
    Decidable (entryOk env base e) := by
  unfold entryOk
  infer_instance

/-- A fully successful entry emits exactly its four-event block. -/
theorem download_and_sign_file_of_entryOk (env : Env) (base : String)
    (e : ManifestEntry) (h : entryOk env base e) :
    download_and_sign_file env (base ++ "/" ++ e.mar) e.hash =
      (entryEvents env base e, Except.ok ()) := by
  obtain ⟨hd, hh, htok, hs, hca⟩ := h
  simp [download_and_sign_file, sign_file, create_artifact, entryEvents,
    hd, hh, htok, hs, hca]

/-- When the entries before `e` fully succeed and `e` downloads but its
hash differs from the declared checksum, the per-entry loop emits the
successful blocks for the prefix, then `e`'s download and the working
directory removal, and aborts with `ChecksumMismatchError` — no artifact
for `e` and nothing for the remaining entries. -/
theorem signEntries_mismatch_at (env : Env) (base : String)
    (pre : List ManifestEntry) (e : ManifestEntry)
    (rest : List ManifestEntry)
    (hpre : ∀ x ∈ pre, entryOk env base x)
    (hd : env.downloadResult (base ++ "/" ++ e.mar) = Except.ok ())
    (hh : env.downloadedHash (base ++ "/" ++ e.mar) ≠ e.hash) :
    signEntries env base (pre ++ e :: rest) =
      (pre.flatMap (entryEvents env base) ++
        [Event.download (base ++ "/" ++ e.mar),
         Event.rmtree (base ++ "/" ++ e.mar)],
       Except.error (Exc.checksumMismatch e.hash
         (env.downloadedHash (base ++ "/" ++ e.mar))
         (base ++ "/" ++ e.mar))) := by
  induction pre with
  | nil =>
    have hdf : download_and_sign_file env (base ++ "/" ++ e.mar) e.hash =
        ([Event.download (base ++ "/" ++ e.mar),
          Event.rmtree (base ++ "/" ++ e.mar)],
         Except.error (Exc.checksumMismatch e.hash
           (env.downloadedHash (base ++ "/" ++ e.mar))
           (base ++ "/" ++ e.mar))) := by
      simp [download_and_sign_file, hd, hh]
    simp [signEntries, hdf]
  | cons x xs ih =>
    have hx := download_and_sign_file_of_entryOk env base x
      (hpre x (by simp))
    have hrest := ih (fun y hy => hpre y (by simp [hy]))
    simp [signEntries, hx, hrest]

/-- A trace made of successful per-entry blocks contains no completion
report. -/
theorem hasReportCompleted_entryEvents (env : Env) (base : String)
    (pre : List ManifestEntry) :
    hasReportCompleted (pre.flatMap (entryEvents env base)) = false := by
  simp [hasReportCompleted, entryEvents]

/-- Environment for the C5 witness: a two-entry manifest where the first
file downloads with the declared hash and the second hashes to a wrong
value. -/
def envMismatch : Env :=
  { envBase with
      manifestResult := Except.ok
        [⟨"f.mar", "abc", 3, [("k", "v")]⟩, ⟨"g.mar", "abc", 4, []⟩]
      downloadedHash := fun u =>
        if u = "http://host/dir/g.mar" then "wrong" else "abc" }

/-- Claim C5: for every downloaded file whose computed hash differs from
the manifest checksum — at any position in the manifest, after any number
of fully processed earlier entries — the working directory of that file is
removed (`rmtree`), a `ChecksumMismatchError` aborts the task inside the
`try` block, and the run produces neither a signed artifact for that file
(its segment of the trace is exactly download then rmtree, and nothing is
emitted for later entries) nor a completion report. -/
theorem claim_C5_checksum_mismatch_aborts (env : Env) (body : Body)
    (task : Task) (pre : List ManifestEntry) (e : ManifestEntry)
    (rest : List ManifestEntry)
    (hc : env.claimResult = Except.ok ())
    (ht : env.taskResult = Except.ok task)
    (hv : env.validateResult = Except.ok ())
    (hm : env.manifestResult = Except.ok (pre ++ e :: rest))
    (hpre : ∀ x ∈ pre, entryOk env (baseUrl task.signingManifest) x)
    (hd : env.downloadResult (baseUrl task.signingManifest ++ "/" ++ e.mar) =
      Except.ok ())
    (hh : env.downloadedHash (baseUrl task.signingManifest ++ "/" ++ e.mar) ≠
      e.hash) :
    process_message env body =
      ⟨[Event.claimTask body.taskId body.runId, Event.taskFetch body.taskId,
        Event.validate body.taskId,
        Event.manifestFetch task.signingManifest] ++
       pre.flatMap (entryEvents env (baseUrl task.signingManifest)) ++
       [Event.download (baseUrl task.signingManifest ++ "/" ++ e.mar),
        Event.rmtree (baseUrl task.signingManifest ++ "/" ++ e.mar),
        Event.ack],
       true, Except.ok ()⟩ ∧
    (try_body env body).2 =
      Except.error (Exc.checksumMismatch e.hash
        (env.downloadedHash (baseUrl task.signingManifest ++ "/" ++ e.mar))
        (baseUrl task.signingManifest ++ "/" ++ e.mar)) ∧
    hasReportCompleted (process_message env body).trace = false := by
  have hse := signEntries_mismatch_at env (baseUrl task.signingManifest)
    pre e rest hpre hd hh
  have hsign : sign env task =
      (Event.manifestFetch task.signingManifest ::
        (pre.flatMap (entryEvents env (baseUrl task.signingManifest)) ++
         [Event.download (baseUrl task.signingManifest ++ "/" ++ e.mar),
          Event.rmtree (baseUrl task.signingManifest ++ "/" ++ e.mar)]),
       Except.error (Exc.checksumMismatch e.hash
         (env.downloadedHash (baseUrl task.signingManifest ++ "/" ++ e.mar))
         (baseUrl task.signingManifest ++ "/" ++ e.mar))) := by
    simp [sign, hm, hse]
  have htry : try_body env body =
      ([Event.claimTask body.taskId body.runId, Event.taskFetch body.taskId,
        Event.validate body.taskId] ++
       (Event.manifestFetch task.signingManifest ::
         (pre.flatMap (entryEvents env (baseUrl task.signingManifest)) ++
          [Event.download (baseUrl task.signingManifest ++ "/" ++ e.mar),
           Event.rmtree (baseUrl task.signingManifest ++ "/" ++ e.mar)])),
       Except.error (Exc.checksumMismatch e.hash
         (env.downloadedHash (baseUrl task.signingManifest ++ "/" ++ e.mar))
         (baseUrl task.signingManifest ++ "/" ++ e.mar))) := by
    simp [try_body, hc, ht, hv, hsign]
  have hpm : process_message env body =
      ⟨[Event.claimTask body.taskId body.runId, Event.taskFetch body.taskId,
        Event.validate body.taskId,
        Event.manifestFetch task.signingManifest] ++
       pre.flatMap (entryEvents env (baseUrl task.signingManifest)) ++
       [Event.download (baseUrl task.signingManifest ++ "/" ++ e.mar),
        Event.rmtree (baseUrl task.signingManifest ++ "/" ++ e.mar),
        Event.ack],
       true, Except.ok ()⟩ := by
    simp [process_message, htry]
  refine ⟨hpm, by rw [htry], ?_⟩
  rw [hpm]
  simp [hasReportCompleted, entryEvents]

/-- Witness for claim C5 at a concrete environment: the mismatch is on the
second manifest entry, after the first entry was downloaded, signed and
uploaded. -/
theorem claim_C5_witness :
    (∀ x ∈ [(⟨"f.mar", "abc", 3, [("k", "v")]⟩ : ManifestEntry)],
       entryOk envMismatch (baseUrl "http://host/dir/manifest.json") x) ∧
    envMismatch.downloadedHash
      (baseUrl "http://host/dir/manifest.json" ++ "/" ++ "g.mar") ≠ "abc" ∧
    process_message envMismatch body0 =
      ⟨[Event.claimTask "t1" "r1", Event.taskFetch "t1", Event.validate "t1",
        Event.manifestFetch "http://host/dir/manifest.json"] ++
       [(⟨"f.mar", "abc", 3, [("k", "v")]⟩ : ManifestEntry)].flatMap
         (entryEvents envMismatch (baseUrl "http://host/dir/manifest.json")) ++
       [Event.download
          (baseUrl "http://host/dir/manifest.json" ++ "/" ++ "g.mar"),
        Event.rmtree
          (baseUrl "http://host/dir/manifest.json" ++ "/" ++ "g.mar"),
        Event.ack],
       true, Except.ok ()⟩ :=
  ⟨by decide, by decide,
   (claim_C5_checksum_mismatch_aborts envMismatch body0
     ⟨"tg", "http://host/dir/manifest.json"⟩
     [⟨"f.mar", "abc", 3, [("k", "v")]⟩] ⟨"g.mar", "abc", 4, []⟩ []
     rfl rfl rfl rfl (by decide) rfl (by decide)).1⟩


/-- When every server in the list answers with an empty body, the token
loop contacts all of them in order and then raises `SigningServerError`. -/
theorem get_token_once_all_empty (resp : String → ServerResp)
    (servers : List String)
    (h : ∀ s ∈ servers, resp s = ServerResp.body "") :
    get_token_once resp servers =
      (servers, Except.error Exc.signingServerError) := by
  induction servers with
  | nil => simp [get_token_once]
  | cons s rest ih =>
    have hs := h s (by simp)
    have hrest := ih (fun x hx => h x (by simp [hx]))
    simp [get_token_once, hs, hrest]

/-- When the servers before `s` answer with empty bodies and `s` answers
with a non-empty body, the loop contacts exactly the prefix and `s` and
returns that body. -/
theorem get_token_once_first_success (resp : String → ServerResp)
    (pre : List String) (s : String) (rest : List String) (c : String)
    (hpre : ∀ x ∈ pre, resp x = ServerResp.body "")
    (hs : resp s = ServerResp.body c) (hc : c ≠ "") :
    get_token_once resp (pre ++ s :: rest) =
      (pre ++ [s], Except.ok c) := by
  induction pre with
  | nil => simp [get_token_once, hs, hc]
  | cons x xs ih =>
    have hx := hpre x (by simp)
    have hxs := ih (fun y hy => hpre y (by simp [hy]))
    simp [get_token_once, hx, hxs]

/-- If every attempt fails, the retry wrapper returns the failure of the
last attempt (attempt index `i + n`). -/
theorem retryFrom_all_error (f : Nat → Except Exc α) (err : Nat → Exc)
    (h : ∀ i, f i = Except.error (err i)) :
    ∀ n i, retryFrom f i n = Except.error (err (i + n)) := by
  intro n
  induction n with
  | zero => intro i; simp [retryFrom, h i]
  | succ n ih =>
    intro i
    have h2 := ih (i + 1)
    have h3 : i + 1 + n = i + (n + 1) := by omega
    rw [h3] at h2
    simp [retryFrom, h i, h2]

/-- When the servers before `s` answer with empty bodies and `s` responds
with an HTTP error, the loop contacts exactly the prefix and `s`, and the
HTTP error propagates immediately — the servers after `s` are never
tried. -/
theorem get_token_once_error_after_empties (resp : String → ServerResp)
    (pre : List String) (s : String) (rest : List String) (st : Nat)
    (hpre : ∀ x ∈ pre, resp x = ServerResp.body "")
    (hs : resp s = ServerResp.httpError st) :
    get_token_once resp (pre ++ s :: rest) =
      (pre ++ [s], Except.error (Exc.httpError st)) := by
  induction pre with
  | nil => simp [get_token_once, hs]
  | cons x xs ih =>
    have hx := hpre x (by simp)
    have hxs := ih (fun y hy => hpre y (by simp [hy]))
    simp [get_token_once, hx, hxs]

/-- Conversely, `SigningServerError` arises ONLY by exhaustion on empty
bodies: whenever the token loop ends with `SigningServerError`, it
contacted the entire server list and every server answered with an empty
2xx body. -/
theorem get_token_once_signing_error_inv (resp : String → ServerResp) :
    ∀ (servers tried : List String),
      get_token_once resp servers =
        (tried, Except.error Exc.signingServerError) →
      tried = servers ∧ ∀ s ∈ servers, resp s = ServerResp.body "" := by
  intro servers
  induction servers with
  | nil =>
    intro tried h
    simp [get_token_once] at h
    simp [h]
  | cons s rest ih =>
    intro tried h
    cases hr : resp s with
    | httpError st => simp [get_token_once, hr] at h
    | body c =>
      by_cases hc : c = ""
      · subst hc
        simp [get_token_once, hr] at h
        obtain ⟨h1, h2⟩ := h
        have hrec : get_token_once resp rest =
            ((get_token_once resp rest).1,
             Except.error Exc.signingServerError) := by
          rw [Prod.ext_iff]
          exact ⟨rfl, h2⟩
        obtain ⟨ht, hall⟩ := ih (get_token_once resp rest).1 hrec
        refine ⟨by rw [← h1, ht], ?_⟩
        intro x hx
        rcases List.mem_cons.mp hx with hx | hx
        · rw [hx]; exact hr
        · exact hall x hx
      · simp [get_token_once, hr, hc] at h

/-- Claim C4, as stated, is false on the code: with two servers that both
respond with HTTP errors ("all return empty or error"), the first
`raise_for_status()` propagates immediately — only the first server in the
shuffled order is contacted, the rest of the list is never tried, and the
error raised is the HTTP error, not `SigningServerError`. -/
theorem claim_C4_counterexample :
    get_token_once
      (fun s => if s = "s1" then ServerResp.httpError 500
                else ServerResp.httpError 503)
      ["s1", "s2"] =
      (["s1"], Except.error (Exc.httpError 500)) := by
  decide

/-- Claim C4 (amended): each acquisition pass iterates the shuffled pool
(the shuffle being an arbitrary permutation of the configured pool) and
returns at the first server whose token body is non-empty, having
contacted exactly the servers up to it; `SigningServerError` is raised
after the whole list has been tried only when every server returned an
empty 2xx body — a server responding with an HTTP error propagates that
error immediately, without trying the remaining servers; and when every
attempt of the whole pass fails, the retry wrapper re-raises the last
attempt's error after the configured 10 attempts. -/
theorem claim_C4_amended :
    (∀ rnd pool, List.Perm (random_shuffle rnd pool) pool) ∧
    (∀ (resp : String → ServerResp) pre s rest c,
      (∀ x ∈ pre, resp x = ServerResp.body "") →
      resp s = ServerResp.body c → c ≠ "" →
      get_token_once resp (pre ++ s :: rest) = (pre ++ [s], Except.ok c)) ∧
    (∀ (resp : String → ServerResp) servers,
      (∀ s ∈ servers, resp s = ServerResp.body "") →
      get_token_once resp servers =
        (servers, Except.error Exc.signingServerError)) ∧
    (∀ (resp : String → ServerResp) servers tried,
      get_token_once resp servers =
        (tried, Except.error Exc.signingServerError) →
      tried = servers ∧ ∀ s ∈ servers, resp s = ServerResp.body "") ∧
    (∀ (resp : String → ServerResp) pre s rest st,
      (∀ x ∈ pre, resp x = ServerResp.body "") →
      resp s = ServerResp.httpError st →
      get_token_once resp (pre ++ s :: rest) =
        (pre ++ [s], Except.error (Exc.httpError st))) ∧
    (∀ pool (rnd : Nat → List String) (resp : Nat → String → ServerResp)
        (err : Nat → Exc),
      (∀ i, (get_token_once (resp i) (random_shuffle (rnd i) pool)).2 =
        Except.error (err i)) →
      get_token pool rnd resp =
        Except.error (err (get_token_attempts - 1))) := by
  refine ⟨?_, ?_, ?_, ?_, ?_, ?_⟩
  · intro rnd pool
    unfold random_shuffle
    split
    · assumption
    · exact List.Perm.refl pool
  · exact get_token_once_first_success
  · exact get_token_once_all_empty
  · exact get_token_once_signing_error_inv
  · exact get_token_once_error_after_empties
  · intro pool rnd resp err h
    unfold get_token retriable
    have := retryFrom_all_error
      (fun i => (get_token_once (resp i) (random_shuffle (rnd i) pool)).2)
      err h (get_token_attempts - 1) 0
    simpa using this

/-- Witness for the amended claim C4: with the shuffled order
`["s1", "s2", "s3"]`, where `s1` answers an empty body and `s2` a
non-empty token, exactly `s1` and `s2` are contacted and the token is
returned; with `s1` answering an empty body and `s2` an HTTP 500, the
error propagates at once and `s3` is never contacted; and with every
server answering an empty body on every attempt, `get_token` propagates
`SigningServerError` after all 10 attempts. -/
theorem claim_C4_witness :
    ((∀ x ∈ ["s1"],
       (fun s => if s = "s2" then ServerResp.body "tok"
                 else ServerResp.body "") x = ServerResp.body "") ∧
     get_token_once
       (fun s => if s = "s2" then ServerResp.body "tok"
                 else ServerResp.body "")
       (["s1"] ++ "s2" :: ["s3"]) = (["s1"] ++ ["s2"], Except.ok "tok")) ∧
    ((∀ x ∈ ["s1"],
       (fun s => if s = "s2" then ServerResp.httpError 500
                 else ServerResp.body "") x = ServerResp.body "") ∧
     get_token_once
       (fun s => if s = "s2" then ServerResp.httpError 500
                 else ServerResp.body "")
       (["s1"] ++ "s2" :: ["s3"]) =
       (["s1"] ++ ["s2"], Except.error (Exc.httpError 500))) ∧
    get_token ["s1", "s2"] (fun _ => ["s2", "s1"])
      (fun _ _ => ServerResp.body "") =
      Except.error Exc.signingServerError :=
  ⟨⟨by decide,
    claim_C4_amended.2.1
      (fun s => if s = "s2" then ServerResp.body "tok"
                else ServerResp.body "")
      ["s1"] "s2" ["s3"] "tok" (by decide) (by decide) (by decide)⟩,
   ⟨by decide,
    claim_C4_amended.2.2.2.2.1
      (fun s => if s = "s2" then ServerResp.httpError 500
                else ServerResp.body "")
      ["s1"] "s2" ["s3"] 500 (by decide) (by decide)⟩,
   claim_C4_amended.2.2.2.2.2 ["s1", "s2"] (fun _ => ["s2", "s1"])
     (fun _ _ => ServerResp.body "") (fun _ => Exc.signingServerError)
     (fun i => by
       show (get_token_once (fun _ => ServerResp.body "")
           (random_shuffle ["s2", "s1"] ["s1", "s2"])).2 =
         Except.error Exc.signingServerError
       decide)⟩

/-- A concrete consumer configuration. -/
def cfg0 : ConsumerConfig :=
  ⟨"q", "signing-worker", ["a", "b"], ["mar", "gpg"], ("user", "pass"),
   ["scope"], "/tools"⟩

/-- Claim C9, as stated, is false on the code: `get_token` executes
`random.shuffle(self.signing_servers)` (worker.py line 155), which
reorders the configured signing-server pool in place; with pool
`["a", "b"]` and the shuffle drawing the order `["b", "a"]`, the stored
pool after one token acquisition differs from the startup value. -/
theorem claim_C9_counterexample :
    (get_token_config_effect ["b", "a"] cfg0).signing_servers ≠
      cfg0.signing_servers := by
  decide

/-- Claim C9 (amended): a token acquisition permutes the stored
signing-server pool in place — the set (multiset) of servers is preserved
but their order may change — and mutates no other configuration field;
no other worker operation assigns to any configuration attribute after
`__init__`. -/
theorem claim_C9_amended (rnd : List String) (c : ConsumerConfig) :
    List.Perm (get_token_config_effect rnd c).signing_servers
      c.signing_servers ∧
    (get_token_config_effect rnd c).queue_name = c.queue_name ∧
    (get_token_config_effect rnd c).worker_type = c.worker_type ∧
    (get_token_config_effect rnd c).signing_formats = c.signing_formats ∧
    (get_token_config_effect rnd c).signing_server_auth =
      c.signing_server_auth ∧
    (get_token_config_effect rnd c).supported_signing_scopes =
      c.supported_signing_scopes ∧
    (get_token_config_effect rnd c).tools_checkout = c.tools_checkout := by
  refine ⟨?_, rfl, rfl, rfl, rfl, rfl, rfl⟩
  unfold get_token_config_effect random_shuffle
  split
  · assumption
  · exact List.Perm.refl c.signing_servers

end SigningWorker
